import Mathlib

/-!
Verification development for the Nexia thermostat client
(`custom_components/nexia/nexia_thermostat.py`).

The Python client is shallowly embedded: numeric temperatures and
humidity fractions become `ℚ`, machine state that each method reads
(cached JSON values, feature limits, settings) becomes explicit record
arguments, a method's network activity becomes the list of POST
requests it issues, and a raised Python exception becomes an error
value.  Each definition mirrors one function of the source file.
-/

namespace Nexia

/-- The kinds of Python exceptions the client raises.  `nameError` stands
for an unhandled `NameError` caused by reading an unbound variable. -/
inductive PyErr
  | attributeError
  | keyError
  | valueError
  | systemError
  | typeError
  | nameError
  | indexError
  | exception
  deriving DecidableEq, Repr

/-- One POST request issued to the remote service, reduced to the target
field and the payload that matters to the claims.  `zoneSetpoints` is the
`/xxl_zones/{id}/setpoints` body `{heat, cool}`; `thermostatVal` and
`zoneStrVal` are `{value: ...}` bodies. -/
inductive PostReq
  | thermostatStrVal (field : String) (value : String)
  | thermostatVal (field : String) (value : ℚ)
  | zoneStrVal (field : String) (value : String)
  | zoneIntVal (field : String) (value : ℤ)
  | zoneSetpoints (heat cool : ℚ)
  deriving DecidableEq, Repr

/-- Result of running one control operation: the POSTs it issued, in
order, before returning or raising, and the exception it raised (if
any). -/
structure OpResult where
  posts : List PostReq
  err : Option PyErr
  deriving DecidableEq, Repr

/-- Temperature scale of a thermostat (`get_unit`, feature
`thermostat.scale`). -/
inductive TempUnit
  | celsius
  | fahrenheit
  deriving DecidableEq, Repr

/-- The per-device reported feature limits that
`check_heat_cool_setpoints` reads: `get_deadband` returns the feature
`thermostat.setpoint_delta`, `get_setpoint_limits` returns the feature
pair `(thermostat.setpoint_heat_min, thermostat.setpoint_cool_max)`,
and `get_unit` returns `thermostat.scale`.  These are device-reported
values, not hardcoded constants. -/
structure TStat where
  setpoint_delta : ℚ
  setpoint_heat_min : ℚ
  setpoint_cool_max : ℚ
  scale : TempUnit
  deriving DecidableEq, Repr

/-- Python 3 `round` to an integer: round half to even (banker's
rounding), as used by `round_temp` and the humidity rounding. -/
def pyRound (q : ℚ) : ℤ :=
  let f := ⌊q⌋
  let r := q - (f : ℚ)
  if r < 1/2 then f
  else if 1/2 < r then f + 1
  else if f % 2 = 0 then f else f + 1

/-- `round_temp`: nearest 1/2 degree for Celsius (`t *= 2; round; /= 2`),
nearest whole degree for Fahrenheit. -/
def round_temp (unit : TempUnit) (temperature : ℚ) : ℚ :=
  match unit with
  | .celsius => (pyRound (temperature * 2) : ℚ) / 2
  | .fahrenheit => (pyRound temperature : ℤ)

/-- `check_heat_cool_setpoints`: rounds each provided setpoint with
`round_temp`, then runs the four sequential guarded checks of the
source (heat < cool, cool - heat >= deadband, heat <= max, cool >= min),
raising `AttributeError` on the first failure.  The source guards each
check on the relevant argument(s) being non-`None`; that guard structure
is flattened here into a match on which arguments are present. -/
def check_heat_cool_setpoints (th : TStat) (heat_temperature cool_temperature : Option ℚ) :
    Except PyErr Unit :=
  let deadband := th.setpoint_delta
  let min_temperature := th.setpoint_heat_min
  let max_temperature := th.setpoint_cool_max
  match heat_temperature.map (round_temp th.scale), cool_temperature.map (round_temp th.scale) with
  | some heat, some cool =>
    if ¬ heat < cool then .error .attributeError
    else if ¬ cool - heat ≥ deadband then .error .attributeError
    else if ¬ heat ≤ max_temperature then .error .attributeError
    else if ¬ cool ≥ min_temperature then .error .attributeError
    else .ok ()
  | some heat, none =>
    if ¬ heat ≤ max_temperature then .error .attributeError else .ok ()
  | none, some cool =>
    if ¬ cool ≥ min_temperature then .error .attributeError else .ok ()
  | none, none => .ok ()

/-- `FAN_MODES` class constant. -/
def FAN_MODES : List String := ["auto", "on", "circulate"]

/-- `AIR_CLEANER_MODES` class constant. -/
def AIR_CLEANER_MODES : List String := ["auto", "quick", "allergy"]

/-- `OPERATION_MODES` class constant. -/
def OPERATION_MODES : List String := ["AUTO", "COOL", "HEAT", "OFF"]

/-- `HOLD_PERMANENT` class constant. -/
def HOLD_PERMANENT : String := "permanent_hold"

/-- Python `str.lower()` as used on the ASCII mode strings: lowercase
every character. -/
def py_lower (s : String) : String := ⟨s.data.map Char.toLower⟩

/-- `set_fan_mode`: lowercases the argument, raises `KeyError` unless it
is one of `FAN_MODES`, and otherwise POSTs `{value: fan_mode}` to the
thermostat `fan_mode` endpoint.  The source performs no comparison with
the current cached fan mode (`currentFanMode` is listed here to record
the cached state the claim quantifies over; the source never reads
it). -/
def set_fan_mode (currentFanMode : String) (fan_mode : String) : OpResult :=
  let fm := py_lower fan_mode
  if fm ∈ FAN_MODES then
    { posts := [.thermostatStrVal "fan_mode" fm], err := none }
  else
    { posts := [], err := some .keyError }

/-- `set_air_cleaner`: lowercases the argument, raises `KeyError` unless
it is one of `AIR_CLEANER_MODES`, skips the POST when it equals the
current cached air cleaner mode, and otherwise POSTs
`{value: air_cleaner_mode}`. -/
def set_air_cleaner (currentAirCleanerMode : String) (air_cleaner_mode : String) : OpResult :=
  let m := py_lower air_cleaner_mode
  if m ∈ AIR_CLEANER_MODES then
    if m ≠ currentAirCleanerMode then
      { posts := [.thermostatStrVal "air_cleaner_mode" m], err := none }
    else
      { posts := [], err := none }
  else
    { posts := [], err := some .keyError }

/-- `set_zone_mode`: raises `KeyError` unless the mode is one of
`OPERATION_MODES`, and otherwise POSTs `{value: mode}` to the zone
`zone_mode` endpoint.  The source performs no comparison with the
current cached zone mode. -/
def set_zone_mode (currentZoneMode : String) (mode : String) : OpResult :=
  if mode ∈ OPERATION_MODES then
    { posts := [.zoneStrVal "zone_mode" mode], err := none }
  else
    { posts := [], err := some .keyError }

/-- `set_zone_preset`: when the requested preset differs from the
current one, resolves the label to its option value by linear scan
(defaulting to 0 on no match) and POSTs `{value: value}`; when it is the
current preset, does nothing.  `options` is the zone's
`preset_selected.options` list of `(label, value)` pairs. -/
def set_zone_preset (currentPreset : String) (options : List (String × ℤ)) (preset : String) :
    OpResult :=
  if currentPreset ≠ preset then
    let value := ((options.find? (fun o => o.1 = preset)).map (fun o => o.2)).getD 0
    { posts := [.zoneIntVal "preset_selected" value], err := none }
  else
    { posts := [], err := none }

/-- `_set_setpoints`: validates the pair with
`check_heat_cool_setpoints`, then POSTs `{heat, cool}` (the unrounded
arguments) unless both already equal the zone's cached setpoints
(`zoneHeat`/`zoneCool` are the cached `setpoints.heat`/`setpoints.cool`
of the zone). -/
def set_setpoints (th : TStat) (zoneHeat zoneCool : ℚ)
    (cool_temperature heat_temperature : ℚ) : OpResult :=
  match check_heat_cool_setpoints th (some heat_temperature) (some cool_temperature) with
  | .error e => { posts := [], err := some e }
  | .ok _ =>
    if zoneCool ≠ cool_temperature ∨ heat_temperature ≠ zoneHeat then
      { posts := [.zoneSetpoints heat_temperature cool_temperature], err := none }
    else
      { posts := [], err := none }

/-- `_set_mode_and_setpoints`: when the zone's cached `run_mode` is not
already `permanent_hold`, first POSTs `{value: permanent_hold}` to the
zone `run_mode` endpoint, and only then calls `_set_setpoints` (which
runs the setpoint validation).  The run-mode POST therefore precedes the
validation. -/
def set_mode_and_setpoints (runMode : String) (th : TStat) (zoneHeat zoneCool : ℚ)
    (cool_temperature heat_temperature : ℚ) : OpResult :=
  let pre : List PostReq :=
    if runMode ≠ HOLD_PERMANENT then [.zoneStrVal "run_mode" HOLD_PERMANENT] else []
  let r := set_setpoints th zoneHeat zoneCool cool_temperature heat_temperature
  { posts := pre ++ r.posts, err := r.err }

/-- `call_permanent_hold`: with neither temperature supplied, holds at
the zone's current cached setpoints; with both supplied, passes them
through; with exactly one supplied, raises `AttributeError`
(both-or-neither contract).  All non-raising paths go through
`_set_mode_and_setpoints` with mode `permanent_hold`. -/
def call_permanent_hold (runMode : String) (th : TStat) (zoneHeat zoneCool : ℚ)
    (heat_temperature cool_temperature : Option ℚ) : OpResult :=
  match heat_temperature, cool_temperature with
  | none, none =>
    set_mode_and_setpoints runMode th zoneHeat zoneCool zoneCool zoneHeat
  | some h, some c =>
    set_mode_and_setpoints runMode th zoneHeat zoneCool c h
  | _, _ => { posts := [], err := some .attributeError }

/-- `set_zone_heat_cool_temp`: resolves the optional heat/cool/set
temperatures into the concrete pair passed to `_set_setpoints`.  When
`set_temperature` is `None`, each missing (`None` or zero: the source
tests Python truthiness, `if heat_temperature:`) side is derived from
the cached setpoint and the other side; deriving from a missing other
side would call `round_temp(None)` in the source, a `TypeError`.  When
`set_temperature` is given, the zone's current mode selects the mapping:
in `COOL` mode it becomes the cooling setpoint and heat is capped at
`cool − deadband`; in `HEAT` mode symmetrically; in any other mode both
setpoints are offset from the rounded value by `math.ceil(deadband / 2)`
(ceiling used for both sides). -/
def set_zone_heat_cool_temp (th : TStat) (zoneMode : String) (zoneHeat zoneCool : ℚ)
    (heat_temperature cool_temperature set_temperature : Option ℚ) : OpResult :=
  let deadband := th.setpoint_delta
  match set_temperature with
  | none =>
    let heatRes : Except PyErr ℚ :=
      match heat_temperature with
      | some h =>
        if h ≠ 0 then .ok (round_temp th.scale h)
        else match cool_temperature with
          | some c => .ok (min zoneHeat (round_temp th.scale c - deadband))
          | none => .error .typeError
      | none =>
        match cool_temperature with
        | some c => .ok (min zoneHeat (round_temp th.scale c - deadband))
        | none => .error .typeError
    match heatRes with
    | .error e => { posts := [], err := some e }
    | .ok heat =>
      let cool : ℚ :=
        match cool_temperature with
        | some c =>
          if c ≠ 0 then round_temp th.scale c
          else max zoneCool (round_temp th.scale heat + deadband)
        | none => max zoneCool (round_temp th.scale heat + deadband)
      set_setpoints th zoneHeat zoneCool cool heat
  | some t =>
    if zoneMode = "COOL" then
      let cool := round_temp th.scale t
      let heat := min zoneHeat (round_temp th.scale cool - deadband)
      set_setpoints th zoneHeat zoneCool cool heat
    else if zoneMode = "HEAT" then
      let heat := round_temp th.scale t
      let cool := max zoneCool (round_temp th.scale heat + deadband)
      set_setpoints th zoneHeat zoneCool cool heat
    else
      let cool := round_temp th.scale t + (⌈deadband / 2⌉ : ℚ)
      let heat := round_temp th.scale t - (⌈deadband / 2⌉ : ℚ)
      set_setpoints th zoneHeat zoneCool cool heat

/-- `HUMIDITY_MIN` class constant (0.35). -/
def HUMIDITY_MIN : ℚ := 35/100

/-- `HUMIDITY_MAX` class constant (0.65). -/
def HUMIDITY_MAX : ℚ := 65/100

/-- The humidity rounding `round(0.05 * round(x / 0.05), 2)`: nearest
multiple of 0.05.  In `ℚ` the outer two-decimal rounding of an exact
multiple of 0.05 is the identity, so only the inner rounding remains. -/
def round05 (q : ℚ) : ℚ := (pyRound (q / (5/100)) : ℚ) * (5/100)

/-- The humidity-relevant cached state of one thermostat:
`indoor_humidity` truthiness (`has_relative_humidity`), and the
`humidify`/`dehumidify` settings entries (`some current_value` when the
settings key exists, i.e. the capability is supported). -/
structure HumState where
  hasRelativeHumidity : Bool
  humidify : Option ℚ
  dehumidify : Option ℚ
  deriving DecidableEq, Repr

/-- The resolution and validation block of `set_humidity_setpoints`
(run once the early returns have passed): raises `SystemError` when a
requested setpoint's capability is unsupported (humidify checked first,
as in the source); fills an unrequested supported setpoint from its
cached current value (0 when unsupported); rounds both values to the
nearest 0.05; and runs the three sequential range checks of the source
(joint `min ≤ humidify ≤ dehumidify ≤ max` when both are supported,
then the individual ranges), returning the resolved dehumidify value
that the subsequent POST carries. -/
def humidity_resolve_validate (st : HumState)
    (dehumidify_setpoint humidify_setpoint : Option ℚ) : Except PyErr ℚ :=
  let humRes : Except PyErr (Bool × ℚ) :=
    match st.humidify with
    | some cur => .ok (true, humidify_setpoint.getD cur)
    | none =>
      if humidify_setpoint ≠ none then .error .systemError else .ok (false, 0)
  let dehumRes : Except PyErr (Bool × ℚ) :=
    match st.dehumidify with
    | some cur => .ok (true, dehumidify_setpoint.getD cur)
    | none =>
      if dehumidify_setpoint ≠ none then .error .systemError else .ok (false, 0)
  match humRes, dehumRes with
  | .error e, _ => .error e
  | .ok _, .error e => .error e
  | .ok (humidify_supported, hv0), .ok (dehumidify_supported, dv0) =>
    let dv := round05 dv0
    let hv := round05 hv0
    if (dehumidify_supported ∧ humidify_supported) ∧
        ¬ (HUMIDITY_MIN ≤ hv ∧ hv ≤ dv ∧ dv ≤ HUMIDITY_MAX) then
      .error .valueError
    else if dehumidify_supported ∧ ¬ (HUMIDITY_MIN ≤ dv ∧ dv ≤ HUMIDITY_MAX) then
      .error .valueError
    else if humidify_supported ∧ ¬ (HUMIDITY_MIN ≤ hv ∧ hv ≤ HUMIDITY_MAX) then
      .error .valueError
    else
      .ok dv

/-- The outer structure of `set_humidity_setpoints`: the early returns
and, when validation succeeds, the single POST to the `dehumidify`
endpoint carrying the resolved dehumidify value. -/
def set_humidity_setpoints (st : HumState)
    (dehumidify_setpoint humidify_setpoint : Option ℚ) (thermostat_id : Option ℕ) : OpResult :=
  if dehumidify_setpoint = none ∧ humidify_setpoint = none then
    { posts := [], err := none }
  else if thermostat_id = none then
    { posts := [], err := some .typeError }
  else if st.hasRelativeHumidity then
    match humidity_resolve_validate st dehumidify_setpoint humidify_setpoint with
    | .error e => { posts := [], err := some e }
    | .ok dv => { posts := [.thermostatVal "dehumidify" dv], err := none }
  else
    { posts := [], err := some .exception }

/-- The fan-speed-relevant cached state: the `fan_speed` settings
entry's `values` list when the settings key exists
(`has_variable_fan_speed` is its truthiness). -/
structure FanState where
  fan_speed_values : Option (List ℚ)
  deriving DecidableEq, Repr

/-- `has_variable_fan_speed`. -/
def has_variable_fan_speed (st : FanState) : Bool := st.fan_speed_values.isSome

/-- `get_variable_fan_speed_limits`: `(values[0], values[-1])` of the
`fan_speed` setting, `AttributeError` when the thermostat has no
variable fan speed (and `IndexError` on an empty values list). -/
def get_variable_fan_speed_limits (st : FanState) : Except PyErr (ℚ × ℚ) :=
  match st.fan_speed_values with
  | some [] => .error .indexError
  | some (v :: vs) => .ok (v, (v :: vs).getLast (List.cons_ne_nil v vs))
  | none => .error .attributeError

/-- `set_fan_setpoint`: reads the limits (raising when variable fan
speed is unsupported), raises `ValueError` when the setpoint is out of
range, and otherwise evaluates `thermostat_id` — a name that is not
bound in `set_fan_setpoint`'s scope in the source (not a parameter, not
assigned, and no module-level global of that name exists), so Python
raises `NameError` before the URL is built and before any POST. -/
def set_fan_setpoint (st : FanState) (fan_setpoint : ℚ) : OpResult :=
  match get_variable_fan_speed_limits st with
  | .error e => { posts := [], err := some e }
  | .ok (min_speed, max_speed) =>
    if min_speed ≤ fan_setpoint ∧ fan_setpoint ≤ max_speed then
      { posts := [], err := some .nameError }
    else
      { posts := [], err := some .valueError }

/-- Outcome of `_post_url`/`_get_url`: a 200 response, a non-2xx
response surfaced by `_check_response`, or no response at all. -/
inductive HttpResult
  | success
  | httpError (code : ℕ)
  | noResponse
  deriving DecidableEq, Repr

/-- `_post_url`: issues the request; on a 302 status it calls `login()`
and then recursively re-issues the same request; on 200 it returns the
response; on any other status `_check_response` raises.  The argument
list is the successive statuses the server returns for this request
(one per issued request); the result carries the final outcome, the
number of requests issued for this call, and the number of re-logins
performed (each `login()` here is assumed to succeed; its own traffic
goes to the sign-in endpoint, not to this request's URL). -/
def post_url : List ℕ → HttpResult × ℕ × ℕ
  | [] => (.noResponse, 0, 0)
  | code :: rest =>
    if code = 302 then
      let r := post_url rest
      (r.1, r.2.1 + 1, r.2.2 + 1)
    else if code = 200 then (.success, 1, 0)
    else (.httpError code, 1, 0)

/-- `_get_url`: same redirect-handling structure as `_post_url` — on a
302 status it calls `login()` and recursively re-issues the same GET. -/
def get_url : List ℕ → HttpResult × ℕ × ℕ
  | [] => (.noResponse, 0, 0)
  | code :: rest =>
    if code = 302 then
      let r := get_url rest
      (r.1, r.2.1 + 1, r.2.2 + 1)
    else if code = 200 then (.success, 1, 0)
    else (.httpError code, 1, 0)

/-- `GLOBAL_LOGIN_ATTEMPTS` module constant: the process-wide login
attempt budget; `GLOBAL_LOGIN_ATTEMPTS_LEFT` starts at this value. -/
def GLOBAL_LOGIN_ATTEMPTS : ℕ := 4

/-- `AUTH_FORGOTTEN_PASSWORD_STRING` class constant. -/
def AUTH_FORGOTTEN_PASSWORD_STRING : String :=
  "https://www.mynexia.com/account/forgotten_credentials"

/-- What `login` observes of the sign-in POST it issues: the response's
status code, final URL, and whether the JSON body has `success: true`. -/
structure SignInResponse where
  status : ℕ
  url : String
  success : Bool
  deriving DecidableEq, Repr

/-- Outcome of one `login` call. -/
inductive LoginResult
  | ok
  | exhausted
  | forgottenPassword
  | checkFailed
  | loginFailed
  deriving DecidableEq, Repr

/-- `login`: when the process-wide counter is positive, POSTs the
credentials (`response` is what `_post_url` returns, `none` meaning no
response), decrements the counter exactly when the response is missing
or its status is neither 200 nor 302, then raises via `_check_response`
on a non-200 response, raises on redirection to the
forgotten-credentials page, and raises unless the JSON reports success.
When the counter is zero, it raises the attempts-exhausted error
immediately, issuing no request.  The result carries the outcome, the
new counter value, and the number of sign-in requests issued (0 or 1). -/
def login (attemptsLeft : ℕ) (response : Option SignInResponse) : LoginResult × ℕ × ℕ :=
  if attemptsLeft > 0 then
    let left : ℕ :=
      match response with
      | none => attemptsLeft - 1
      | some r => if r.status ≠ 200 ∧ r.status ≠ 302 then attemptsLeft - 1 else attemptsLeft
    match response with
    | none => (.checkFailed, left, 1)
    | some r =>
      if r.status ≠ 200 then (.checkFailed, left, 1)
      else if r.url = AUTH_FORGOTTEN_PASSWORD_STRING then (.forgottenPassword, left, 1)
      else if r.success then (.ok, left, 1)
      else (.loginFailed, left, 1)
  else
    (.exhausted, attemptsLeft, 0)

/-- `DEFAULT_UPDATE_RATE` class constant (seconds). -/
def DEFAULT_UPDATE_RATE : ℤ := 120

/-- The `update_rate` constructor argument: omitted, the
`DISABLE_AUTO_UPDATE` sentinel string, or a number of seconds. -/
inductive UpdateRateParam
  | unspecified
  | disable
  | rate (r : ℤ)
  deriving DecidableEq, Repr

/-- The `__init__` resolution of `update_rate`: omitted means the
default 120-second interval; the sentinel disables automatic updates
(`none` here encodes `DISABLE_AUTO_UPDATE`); a number becomes that
interval. -/
def init_update_rate : UpdateRateParam → Option ℤ
  | .unspecified => some DEFAULT_UPDATE_RATE
  | .disable => none
  | .rate r => some r

/-- The cache-staleness-relevant client state: whether `mobile_id` is
set (authenticated), whether `thermostat_json` is non-`None`, the
`last_update` timestamp, and the resolved update rate (`none` =
`DISABLE_AUTO_UPDATE`).  Times are seconds as integers. -/
structure CacheState where
  mobileId : Bool
  hasJson : Bool
  lastUpdate : Option ℤ
  updateRate : Option ℤ
  deriving DecidableEq, Repr

/-- `_needs_update`: `False` when auto-update is disabled; `True` when
never updated; otherwise whether more than `update_rate` seconds have
passed since `last_update`. -/
def needs_update (s : CacheState) (now : ℤ) : Bool :=
  match s.updateRate with
  | none => false
  | some rate =>
    match s.lastUpdate with
    | none => true
    | some lu => decide (now - lu > rate)

/-- The refetch condition of `_get_thermostat_json`: nothing is fetched
before authentication; otherwise the network fetch runs exactly when the
snapshot is `None`, or `_needs_update()` holds, or `force_update is
True`. -/
def fetch_triggered (s : CacheState) (now : ℤ) (force_update : Bool) : Bool :=
  s.mobileId && (!s.hasJson || needs_update s now || force_update)

/-- `find_dict_with_keyvalue_in_json`: first entry of the list whose
identity key equals the requested value (`None` when absent). -/
def find_dict_with_keyvalue_in_json {α β : Type} [DecidableEq β]
    (json_dict : List α) (key_in_subdict : α → β) (value_to_find : β) : Option α :=
  json_dict.find? (fun d => key_in_subdict d = value_to_find)

/-- One Device record of the snapshot, reduced to its identity and a
representative payload field. -/
structure DeviceRec where
  id : ℕ
  name : String
  deriving DecidableEq, Repr

/-- The `thermostat_id` argument of `_get_thermostat_json`: the `ALL_IDS`
sentinel (`"all"`), a specific id, or omitted (`None`). -/
inductive ThermoSelector
  | all
  | byId (i : ℕ)
  | omitted
  deriving DecidableEq, Repr

/-- What the device-selection step of `_get_thermostat_json` returns:
the whole sequence or one Device record. -/
inductive SelectResult
  | list (ds : List DeviceRec)
  | one (d : DeviceRec)
  deriving DecidableEq, Repr

/-- The selection errors: `KeyError` enumerating the known ids, or the
`IndexError` raised when the id is omitted and there is not exactly one
device. -/
inductive SelectError
  | notFound (i : ℕ) (known : List ℕ)
  | ambiguous
  deriving DecidableEq, Repr

/-- The selection step of `_get_thermostat_json` over a populated
snapshot: the `"all"` sentinel returns the whole sequence; a specific id
returns the first matching Device or raises `KeyError` listing every
known id; an omitted id returns the device exactly when one device
exists and otherwise raises the ambiguous-selection `IndexError`. -/
def get_thermostat_json (snap : List DeviceRec) :
    ThermoSelector → Except SelectError SelectResult
  | .all => .ok (.list snap)
  | .byId i =>
    match find_dict_with_keyvalue_in_json snap (fun d => d.id) i with
    | some d => .ok (.one d)
    | none => .error (.notFound i (snap.map (fun d => d.id)))
  | .omitted =>
    match snap with
    | [d] => .ok (.one d)
    | _ => .error .ambiguous

end Nexia

namespace Nexia

/-- `check_heat_cool_setpoints` with both setpoints given returns
normally iff all four sequential checks pass on the rounded values. -/
lemma check_heat_cool_setpoints_ok_iff (th : TStat) (h c : ℚ) :
    check_heat_cool_setpoints th (some h) (some c) = .ok () ↔
      (round_temp th.scale h < round_temp th.scale c ∧
       th.setpoint_delta ≤ round_temp th.scale c - round_temp th.scale h ∧
       round_temp th.scale h ≤ th.setpoint_cool_max ∧
       th.setpoint_heat_min ≤ round_temp th.scale c) := by
  simp only [check_heat_cool_setpoints, Option.map_some']
  split_ifs <;> simp_all [not_lt, not_le]

/-- C1: for every heat/cool setpoint pair (each value rounded per-device
by `round_temp` before validation), `check_heat_cool_setpoints` raises
exactly when rounded heat ≥ rounded cool, or rounded cool − rounded heat
< deadband, or rounded heat exceeds the device-reported maximum
(`setpoint_cool_max`), or rounded cool is below the device-reported
minimum (`setpoint_heat_min`); it returns normally otherwise.  Deadband
and both bounds are the device-reported feature limits carried by
`TStat`, not hardcoded. -/
theorem check_heat_cool_setpoints_raises_iff (th : TStat) (h c : ℚ) :
    (∃ e, check_heat_cool_setpoints th (some h) (some c) = .error e) ↔
      (round_temp th.scale h ≥ round_temp th.scale c ∨
       round_temp th.scale c - round_temp th.scale h < th.setpoint_delta ∨
       round_temp th.scale h > th.setpoint_cool_max ∨
       round_temp th.scale c < th.setpoint_heat_min) := by
  have hok := check_heat_cool_setpoints_ok_iff th h c
  constructor
  · rintro ⟨e, he⟩
    by_contra hcon
    push_neg at hcon
    obtain ⟨g1, g2, g3, g4⟩ := hcon
    rw [hok.mpr ⟨g1, by linarith, g3, g4⟩] at he
    exact Except.noConfusion he
  · intro hx
    rcases hcase : check_heat_cool_setpoints th (some h) (some c) with e | u
    · exact ⟨e, rfl⟩
    · exfalso
      obtain ⟨g1, g2, g3, g4⟩ := hok.mp (by cases u; exact hcase)
      rcases hx with hx | hx | hx | hx <;> linarith

/-- `pyRound` of an integer is that integer. -/
lemma pyRound_intCast (n : ℤ) : pyRound (n : ℚ) = n := by
  norm_num [pyRound]

/-- `_set_setpoints` issues no POST when its validation raises. -/
lemma set_setpoints_posts_of_err (th : TStat) (zh zc c h : ℚ) :
    (set_setpoints th zh zc c h).err.isSome → (set_setpoints th zh zc c h).posts = [] := by
  unfold set_setpoints
  split
  · intro _
    rfl
  · split
    · intro he
      simp at he
    · intro _
      rfl

/-- `_set_mode_and_setpoints` on a failing validation issues only the
run-mode POST (and that only when the zone is not already in permanent
hold). -/
lemma set_mode_and_setpoints_posts_of_err (rm : String) (th : TStat) (zh zc c h : ℚ) :
    (set_mode_and_setpoints rm th zh zc c h).err.isSome →
      (set_mode_and_setpoints rm th zh zc c h).posts =
        (if rm ≠ HOLD_PERMANENT then [PostReq.zoneStrVal "run_mode" HOLD_PERMANENT] else []) := by
  intro he
  simp only [set_mode_and_setpoints] at he ⊢
  rw [set_setpoints_posts_of_err th zh zc c h he]
  simp

/-- C2 counterexample: `set_fan_mode` with a fan mode equal to the
current cached fan mode still issues the POST — the source has no
idempotence comparison for fan mode, so "zero network calls" fails at
this input. -/
theorem set_fan_mode_posts_when_unchanged :
    set_fan_mode "auto" "auto" =
      { posts := [PostReq.thermostatStrVal "fan_mode" "auto"], err := none } ∧
    (set_fan_mode "auto" "auto").posts ≠ [] := by
  constructor <;> decide

/-- C2 amended: only `set_air_cleaner`, `_set_setpoints` and
`set_zone_preset` skip the remote POST when the computed target equals
the current cached state; `set_fan_mode`, `set_zone_mode` and
`set_humidity_setpoints` issue their POST whenever validation passes,
even when the target matches the current state. -/
theorem idempotence_skip_only_some_operations :
    (∀ cur m, py_lower m ∈ AIR_CLEANER_MODES → py_lower m = cur →
      set_air_cleaner cur m = { posts := [], err := none }) ∧
    (∀ th zh zc, check_heat_cool_setpoints th (some zh) (some zc) = .ok () →
      set_setpoints th zh zc zc zh = { posts := [], err := none }) ∧
    (∀ cur opts, set_zone_preset cur opts cur = { posts := [], err := none }) ∧
    (∀ cur m, py_lower m ∈ FAN_MODES →
      (set_fan_mode cur m).posts = [PostReq.thermostatStrVal "fan_mode" (py_lower m)]) ∧
    (∀ cur m, m ∈ OPERATION_MODES →
      (set_zone_mode cur m).posts = [PostReq.zoneStrVal "zone_mode" m]) ∧
    (∀ st d tid, (set_humidity_setpoints st (some d) none (some tid)).err = none →
      (set_humidity_setpoints st (some d) none (some tid)).posts ≠ []) := by
  refine ⟨?_, ?_, ?_, ?_, ?_, ?_⟩
  · intro cur m hmem heq
    subst heq
    simp [set_air_cleaner, hmem]
  · intro th zh zc hok
    simp [set_setpoints, hok]
  · intro cur opts
    simp [set_zone_preset]
  · intro cur m hmem
    simp [set_fan_mode, hmem]
  · intro cur m hmem
    simp [set_zone_mode, hmem]
  · intro st d tid hok
    unfold set_humidity_setpoints at hok ⊢
    rw [if_neg (by simp)] at hok ⊢
    rw [if_neg (by simp)] at hok ⊢
    by_cases hrel : st.hasRelativeHumidity = true
    · rw [if_pos hrel] at hok ⊢
      rcases hv : humidity_resolve_validate st (some d) none with e | dv
      · rw [hv] at hok
        simp at hok
      · simp
    · rw [if_neg hrel] at hok
      simp at hok

/-- C3 counterexample: `call_permanent_hold` on a zone whose cached
`run_mode` is not `permanent_hold`, with setpoints violating the
heat < cool check (heat 75, cool 70, deadband 3, limits 55..90,
Fahrenheit), POSTs the run-mode hold before the validation raises: one
POST is issued from invalid input, contradicting "performs no POST at
all". -/
theorem call_permanent_hold_posts_despite_invalid :
    call_permanent_hold "run_schedule" ⟨3, 55, 90, .fahrenheit⟩ 68 73 (some 75) (some 70) =
      { posts := [PostReq.zoneStrVal "run_mode" "permanent_hold"],
        err := some .attributeError } := by
  have h75 : round_temp TempUnit.fahrenheit 75 = 75 := by norm_num [round_temp, pyRound]
  have h70 : round_temp TempUnit.fahrenheit 70 = 70 := by norm_num [round_temp, pyRound]
  simp [call_permanent_hold, set_mode_and_setpoints, set_setpoints,
    check_heat_cool_setpoints, HOLD_PERMANENT, h75, h70]
  norm_num

/-- C3 amended: every validation failure is raised before the
operation's own data POST — in particular no `setpoints` POST is ever
issued from invalid input, and the simple operations issue no POST at
all on validation failure — but `call_permanent_hold` on a zone not
already in permanent hold issues the run-mode hold POST before the
setpoint validation runs, so an invalid input can still cause that one
remote mutation; only when the zone is already in permanent hold does
an invalid input cause no POST at all. -/
theorem validation_raises_before_data_post :
    (∀ th zh zc c h, ((set_setpoints th zh zc c h).err.isSome) →
      (set_setpoints th zh zc c h).posts = []) ∧
    (∀ rm th zh zc ht ct, ∀ p ∈ (call_permanent_hold rm th zh zc ht ct).posts,
      (call_permanent_hold rm th zh zc ht ct).err.isSome →
        ∀ hq cq, p ≠ PostReq.zoneSetpoints hq cq) ∧
    (∀ th zh zc ht ct, (call_permanent_hold HOLD_PERMANENT th zh zc ht ct).err.isSome →
      (call_permanent_hold HOLD_PERMANENT th zh zc ht ct).posts = []) ∧
    (∀ rm th zh zc ht ct, rm ≠ HOLD_PERMANENT →
      (call_permanent_hold rm th zh zc ht ct).err.isSome →
      ((call_permanent_hold rm th zh zc ht ct).posts = [] ∨
       (call_permanent_hold rm th zh zc ht ct).posts =
         [PostReq.zoneStrVal "run_mode" HOLD_PERMANENT])) ∧
    (∀ cur m, (set_fan_mode cur m).err.isSome → (set_fan_mode cur m).posts = []) ∧
    (∀ cur m, (set_air_cleaner cur m).err.isSome → (set_air_cleaner cur m).posts = []) ∧
    (∀ cur m, (set_zone_mode cur m).err.isSome → (set_zone_mode cur m).posts = []) ∧
    (∀ th zm zh zc hh cc st, (set_zone_heat_cool_temp th zm zh zc hh cc st).err.isSome →
      (set_zone_heat_cool_temp th zm zh zc hh cc st).posts = []) ∧
    (∀ st d h tid, (set_humidity_setpoints st d h tid).err.isSome →
      (set_humidity_setpoints st d h tid).posts = []) ∧
    (∀ st sp, (set_fan_setpoint st sp).posts = []) := by
  refine ⟨set_setpoints_posts_of_err, ?_, ?_, ?_, ?_, ?_, ?_, ?_, ?_, ?_⟩
  · intro rm th zh zc ht ct p hp he hq cq
    rcases ht with _ | h1 <;> rcases ct with _ | c1
    · simp only [call_permanent_hold] at hp he
      rw [set_mode_and_setpoints_posts_of_err _ _ _ _ _ _ he] at hp
      split at hp <;> simp_all
    · simp only [call_permanent_hold] at hp
      simp at hp
    · simp only [call_permanent_hold] at hp
      simp at hp
    · simp only [call_permanent_hold] at hp he
      rw [set_mode_and_setpoints_posts_of_err _ _ _ _ _ _ he] at hp
      split at hp <;> simp_all
  · intro th zh zc ht ct he
    rcases ht with _ | h1 <;> rcases ct with _ | c1 <;>
        simp only [call_permanent_hold] at he ⊢ <;>
        first
          | rfl
          | (rw [set_mode_and_setpoints_posts_of_err _ _ _ _ _ _ he]; simp [HOLD_PERMANENT])
  · intro rm th zh zc ht ct hrm he
    rcases ht with _ | h1 <;> rcases ct with _ | c1 <;>
        simp only [call_permanent_hold] at he ⊢ <;>
        first
          | exact Or.inl trivial
          | (rw [set_mode_and_setpoints_posts_of_err _ _ _ _ _ _ he]
             exact Or.inr (by simp [hrm]))
  · intro cur m he
    simp only [set_fan_mode] at he ⊢
    split at he <;> simp_all
  · intro cur m he
    simp only [set_air_cleaner] at he ⊢
    split at he
    · split at he <;> simp_all
    · simp_all
  · intro cur m he
    simp only [set_zone_mode] at he ⊢
    split at he <;> simp_all
  · intro th zm zh zc hh cc stemp
    show (set_zone_heat_cool_temp th zm zh zc hh cc stemp).err.isSome →
      (set_zone_heat_cool_temp th zm zh zc hh cc stemp).posts = []
    rcases stemp with _ | t
    · simp only [set_zone_heat_cool_temp]
      split
      · intro _
        rfl
      · intro he
        exact set_setpoints_posts_of_err _ _ _ _ _ he
    · simp only [set_zone_heat_cool_temp]
      split_ifs <;> intro he <;> exact set_setpoints_posts_of_err _ _ _ _ _ he
  · intro st d h tid he
    unfold set_humidity_setpoints at he ⊢
    split_ifs at he ⊢ with d1 d2 d3
    · simp at he
    · rfl
    · rcases hv : humidity_resolve_validate st d h with e | dv
      · rfl
      · rw [hv] at he
        simp at he
    · rfl
  · intro st sp
    unfold set_fan_setpoint
    split
    · rfl
    · split <;> rfl

/-- C4 counterexample: with deadband 3 and unified `set_temperature` 70
in a mode that is neither COOL nor HEAT (Fahrenheit, limits 55..90,
cached setpoints 68/73), the code produces heat 68 — it subtracts
`math.ceil(deadband / 2) = 2`, not the floor 1 that the claim states, so
the heating setpoint is not `rounded − ⌊deadband / 2⌋ = 69`. -/
theorem unified_split_uses_ceil_not_floor :
    (set_zone_heat_cool_temp ⟨3, 55, 90, .fahrenheit⟩ "AUTO" 68 73 none none (some 70)).posts =
      [PostReq.zoneSetpoints 68 72] ∧
    ¬ (68 : ℚ) = round_temp .fahrenheit 70 - ((⌊(3 : ℚ) / 2⌋ : ℤ) : ℚ) := by
  have h70 : round_temp TempUnit.fahrenheit 70 = 70 := by norm_num [round_temp, pyRound]
  constructor
  · have hceil : (⌈(3 : ℚ) / 2⌉ : ℤ) = 2 := by
      rw [Int.ceil_eq_iff] <;> norm_num
    simp [set_zone_heat_cool_temp, set_setpoints, check_heat_cool_setpoints,
      h70, hceil, round_temp, pyRound_intCast]
    norm_num [round_temp, pyRound]
  · rw [h70]
    have : (⌊(3 : ℚ) / 2⌋ : ℤ) = 1 := by norm_num
    rw [this]
    norm_num

/-- C4 amended: when only a unified `set_temperature` is supplied and
the zone mode is neither COOL nor HEAT, both setpoints are offset from
the rounded value by the ceiling of half the deadband: cool = rounded +
⌈deadband/2⌉ and heat = rounded − ⌈deadband/2⌉ (ceiling on both sides,
not floor for heat), so cool − heat = 2·⌈deadband/2⌉ ≥ deadband; for
deadband 3 and set_temperature 70 this yields heat 68 and cool 72. -/
theorem unified_split_symmetric_ceil (th : TStat) (zoneMode : String) (zh zc t : ℚ)
    (h1 : zoneMode ≠ "COOL") (h2 : zoneMode ≠ "HEAT") :
    set_zone_heat_cool_temp th zoneMode zh zc none none (some t) =
      set_setpoints th zh zc
        (round_temp th.scale t + ((⌈th.setpoint_delta / 2⌉ : ℤ) : ℚ))
        (round_temp th.scale t - ((⌈th.setpoint_delta / 2⌉ : ℤ) : ℚ)) ∧
    (round_temp th.scale t + ((⌈th.setpoint_delta / 2⌉ : ℤ) : ℚ)) -
        (round_temp th.scale t - ((⌈th.setpoint_delta / 2⌉ : ℤ) : ℚ)) ≥ th.setpoint_delta ∧
    (set_zone_heat_cool_temp ⟨3, 55, 90, .fahrenheit⟩ "AUTO" 68 73 none none (some 70)).posts =
      [PostReq.zoneSetpoints 68 72] := by
  refine ⟨?_, ?_, ?_⟩
  · simp [set_zone_heat_cool_temp, h1, h2]
  · have hle := Int.le_ceil (th.setpoint_delta / 2)
    linarith
  · have h70 : round_temp TempUnit.fahrenheit 70 = 70 := by norm_num [round_temp, pyRound]
    have hceil : (⌈(3 : ℚ) / 2⌉ : ℤ) = 2 := by
      rw [Int.ceil_eq_iff] <;> norm_num
    simp [set_zone_heat_cool_temp, set_setpoints, check_heat_cool_setpoints,
      h70, hceil, round_temp, pyRound_intCast]
    norm_num [round_temp, pyRound]

/-- C5 counterexample: a request whose first two responses are both 302
performs a second re-login and a second retry — `post_url` (and
`get_url`) on the response stream [302, 302, 200] issues 3 requests and
2 re-logins, where the claim allows at most 2 requests and 1 re-login
("a second retry of the same call never occurs"). -/
theorem redirect_retry_twice_cex :
    post_url [302, 302, 200] = (.success, 3, 2) ∧
    get_url [302, 302, 200] = (.success, 3, 2) ∧ (3 ≠ 2 ∧ 2 ≠ 1) := by
  refine ⟨rfl, rfl, by decide⟩

/-- C5 amended: a 302 response triggers a re-login and a retry of the
same request, and this repeats for every consecutive 302 (the handler
recurses, it is not limited to one retry); when the first response is
302 and the second is not, exactly one re-login and one retry occur and
the outcome is decided by that second response (200 succeeds, anything
else raises). -/
theorem redirect_retry_one_when_second_settles (c2 : ℕ) (rest : List ℕ)
    (h : c2 ≠ 302) :
    post_url (302 :: c2 :: rest) =
      ((if c2 = 200 then HttpResult.success else HttpResult.httpError c2), 2, 1) ∧
    get_url (302 :: c2 :: rest) =
      ((if c2 = 200 then HttpResult.success else HttpResult.httpError c2), 2, 1) ∧
    (∀ rs, post_url (302 :: rs) =
      ((post_url rs).1, (post_url rs).2.1 + 1, (post_url rs).2.2 + 1)) := by
  refine ⟨?_, ?_, ?_⟩
  · by_cases h200 : c2 = 200 <;> simp [post_url, h, h200]
  · by_cases h200 : c2 = 200 <;> simp [get_url, h, h200]
  · intro rs
    simp [post_url]

/-- C5 witness: the amended retry theorem applied to a 302 followed by a
404. -/
theorem redirect_retry_one_witness :
    post_url [302, 404] =
      ((if 404 = 200 then HttpResult.success else HttpResult.httpError 404), 2, 1) ∧
    get_url [302, 404] =
      ((if 404 = 200 then HttpResult.success else HttpResult.httpError 404), 2, 1) ∧
    (∀ rs, post_url (302 :: rs) =
      ((post_url rs).1, (post_url rs).2.1 + 1, (post_url rs).2.2 + 1)) :=
  redirect_retry_one_when_second_settles 404 [] (by decide)

/-- C6: for an authenticated client, the `_get_thermostat_json` refetch
runs exactly when the snapshot has never been fetched, or a configured
refresh interval has elapsed (strictly) since the last fetch, or the
caller forces the update; with the update rate set to the disable
sentinel, `_needs_update` is always false and a client holding a
snapshot never auto-refreshes, regardless of elapsed time; an
unspecified update rate resolves to the 120-second default. -/
theorem fetch_triggered_iff (s : CacheState) (now : ℤ) (force : Bool)
    (hauth : s.mobileId = true) (hinv : s.hasJson = s.lastUpdate.isSome) :
    (fetch_triggered s now force = true ↔
      (s.hasJson = false ∨
       (∃ r lu, s.updateRate = some r ∧ s.lastUpdate = some lu ∧ now - lu > r) ∨
       force = true)) ∧
    (s.updateRate = none → needs_update s now = false) ∧
    (s.updateRate = none → s.hasJson = true → fetch_triggered s now false = false) ∧
    init_update_rate .unspecified = some 120 ∧
    init_update_rate .disable = none := by
  refine ⟨?_, ?_, ?_, rfl, rfl⟩
  · unfold fetch_triggered needs_update
    rw [hauth]
    rcases hr : s.updateRate with _ | r <;> rcases hl : s.lastUpdate with _ | lu <;>
        rw [hinv, hl] <;> simp [hr, hl]
  · intro hdis
    unfold needs_update
    rw [hdis]
  · intro hdis hjson
    unfold fetch_triggered needs_update
    rw [hauth, hjson, hdis]
    simp

/-- C6 witness: the staleness theorem applied to an authenticated
client with a snapshot fetched at time 0, default 120-second rate,
queried at time 121 without force. -/
theorem fetch_triggered_iff_witness :
    (fetch_triggered ⟨true, true, some 0, some 120⟩ 121 false = true ↔
      ((⟨true, true, some 0, some 120⟩ : CacheState).hasJson = false ∨
       (∃ r lu, (⟨true, true, some 0, some 120⟩ : CacheState).updateRate = some r ∧
         (⟨true, true, some 0, some 120⟩ : CacheState).lastUpdate = some lu ∧
         (121 : ℤ) - lu > r) ∨
       false = true)) ∧
    ((⟨true, true, some 0, some 120⟩ : CacheState).updateRate = none →
      needs_update ⟨true, true, some 0, some 120⟩ 121 = false) ∧
    ((⟨true, true, some 0, some 120⟩ : CacheState).updateRate = none →
      (⟨true, true, some 0, some 120⟩ : CacheState).hasJson = true →
      fetch_triggered ⟨true, true, some 0, some 120⟩ 121 false = false) ∧
    init_update_rate .unspecified = some 120 ∧
    init_update_rate .disable = none :=
  fetch_triggered_iff ⟨true, true, some 0, some 120⟩ 121 false rfl rfl

/-- When the resolution/validation block succeeds, the value it returns
for the POST is the rounded requested dehumidify setpoint (falling back
to the cached current value when not requested, and to 0 when
dehumidify is unsupported). -/
lemma humidity_validate_ok_value (st : HumState) (d h : Option ℚ) (dvv : ℚ)
    (hok : humidity_resolve_validate st d h = .ok dvv) :
    dvv = round05 (d.getD (st.dehumidify.getD 0)) := by
  unfold humidity_resolve_validate at hok
  rcases hh : st.humidify with _ | c <;> rw [hh] at hok <;>
      rcases hd : st.dehumidify with _ | c2 <;> rw [hd] at hok
  · by_cases hh2 : h = none <;> by_cases hd2 : d = none <;>
        simp only [hh2, hd2] at hok <;> simp_all <;>
        split_ifs at hok <;> simp_all [hd2]
  · by_cases hh2 : h = none <;> simp only [hh2] at hok <;> simp_all <;>
        split_ifs at hok <;> simp_all
  · by_cases hd2 : d = none <;> simp only [hd2] at hok <;> simp_all <;>
        split_ifs at hok <;> simp_all [hd2]
  · simp only at hok
    split_ifs at hok <;> simp_all

/-- C7: `set_humidity_setpoints` raises `SystemError` when a requested
setpoint's capability is unsupported; on success (with at least one
setpoint requested) it issues exactly one POST, to the dehumidify
endpoint only, carrying the requested dehumidify value rounded to the
nearest 0.05 (the cached current value when dehumidify was not
requested); a supported humidify request whose rounded value exceeds
the 0.65 maximum fails with a validation error, as does a humidify
request whose rounded value exceeds the (resolved) dehumidify setpoint
when both capabilities are supported; in particular humidify = 0.70
fails, and humidify = 0.40 against a current dehumidify of 0.35
fails. -/
theorem set_humidity_setpoints_spec :
    (∀ st d hv tid, st.hasRelativeHumidity = true → st.humidify = none →
      set_humidity_setpoints st d (some hv) (some tid) =
        { posts := [], err := some .systemError }) ∧
    (∀ st dv tid, st.hasRelativeHumidity = true → st.dehumidify = none →
      set_humidity_setpoints st (some dv) none (some tid) =
        { posts := [], err := some .systemError }) ∧
    (∀ st d h tid, ¬ (d = none ∧ h = none) →
      (set_humidity_setpoints st d h tid).err = none →
      (set_humidity_setpoints st d h tid).posts =
        [PostReq.thermostatVal "dehumidify" (round05 (d.getD (st.dehumidify.getD 0)))]) ∧
    (∀ st c hv tid, st.hasRelativeHumidity = true → st.humidify = some c →
      HUMIDITY_MAX < round05 hv →
      (set_humidity_setpoints st none (some hv) (some tid)).err = some .valueError) ∧
    (∀ st c1 c2 hv tid, st.hasRelativeHumidity = true → st.humidify = some c1 →
      st.dehumidify = some c2 → round05 c2 < round05 hv →
      (set_humidity_setpoints st none (some hv) (some tid)).err = some .valueError) ∧
    (set_humidity_setpoints ⟨true, some (45/100), some (50/100)⟩ none (some (70/100))
        (some 1) = { posts := [], err := some .valueError } ∧
     set_humidity_setpoints ⟨true, some (45/100), some (35/100)⟩ none (some (40/100))
        (some 1) = { posts := [], err := some .valueError }) := by
  have hwrap : ∀ st (d h : Option ℚ) tid, ¬ (d = none ∧ h = none) →
      st.hasRelativeHumidity = true →
      set_humidity_setpoints st d h (some tid) =
        (match humidity_resolve_validate st d h with
          | .error e => { posts := [], err := some e }
          | .ok dv => { posts := [PostReq.thermostatVal "dehumidify" dv], err := none }) := by
    intro st d h tid hnn hrel
    unfold set_humidity_setpoints
    rw [if_neg hnn, if_neg (by simp), if_pos hrel]
  refine ⟨?_, ?_, ?_, ?_, ?_, ?_, ?_⟩
  · intro st d hv tid hrel hnone
    rw [hwrap st d (some hv) tid (by simp) hrel]
    have hval : humidity_resolve_validate st d (some hv) = .error .systemError := by
      unfold humidity_resolve_validate
      rw [hnone]
      simp
    rw [hval]
  · intro st dv tid hrel hnone
    rw [hwrap st (some dv) none tid (by simp) hrel]
    have hval : humidity_resolve_validate st (some dv) none = .error .systemError := by
      unfold humidity_resolve_validate
      rw [hnone]
      rcases hh : st.humidify with _ | c <;> simp
    rw [hval]
  · intro st d h tid hnn hok
    unfold set_humidity_setpoints at hok ⊢
    rw [if_neg hnn] at hok ⊢
    by_cases htid : tid = none
    · rw [if_pos htid] at hok
      simp at hok
    · rw [if_neg htid] at hok ⊢
      by_cases hrel : st.hasRelativeHumidity = true
      · rw [if_pos hrel] at hok ⊢
        rcases hv : humidity_resolve_validate st d h with e | dvv
        · rw [hv] at hok
          simp at hok
        · simp [humidity_validate_ok_value st d h dvv hv]
      · rw [if_neg hrel] at hok
        simp at hok
  · intro st c hv tid hrel hhum hgt
    rw [hwrap st none (some hv) tid (by simp) hrel]
    have hval : humidity_resolve_validate st none (some hv) = .error .valueError := by
      have hnc1 : ¬ (HUMIDITY_MIN ≤ round05 hv ∧ round05 hv ≤ HUMIDITY_MAX) :=
        fun hcon => absurd hgt (not_lt.mpr hcon.2)
      unfold humidity_resolve_validate
      rw [hhum]
      rcases hd : st.dehumidify with _ | c2
      · simp [hnc1]
      · have hnc2 : ¬ (HUMIDITY_MIN ≤ round05 hv ∧ round05 hv ≤ round05 c2 ∧
            round05 c2 ≤ HUMIDITY_MAX) :=
          fun hcon => absurd hgt (not_lt.mpr (le_trans hcon.2.1 hcon.2.2))
        simp [hnc2]
    rw [hval]
  · intro st c1 c2 hv tid hrel hhum hdehum hlt
    rw [hwrap st none (some hv) tid (by simp) hrel]
    have hval : humidity_resolve_validate st none (some hv) = .error .valueError := by
      have hnc : ¬ (HUMIDITY_MIN ≤ round05 hv ∧ round05 hv ≤ round05 c2 ∧
          round05 c2 ≤ HUMIDITY_MAX) :=
        fun hcon => absurd hlt (not_lt.mpr hcon.2.1)
      unfold humidity_resolve_validate
      rw [hhum, hdehum]
      simp [hnc]
    rw [hval]
  · have hr7 : round05 (70/100) = 70/100 := by norm_num [round05, pyRound]
    have hr45 : round05 (45/100) = 45/100 := by norm_num [round05, pyRound]
    simp [set_humidity_setpoints, humidity_resolve_validate, hr7, hr45,
      HUMIDITY_MIN, HUMIDITY_MAX]
    norm_num
  · have hr4 : round05 (40/100) = 40/100 := by norm_num [round05, pyRound]
    have hr35 : round05 (35/100) = 35/100 := by norm_num [round05, pyRound]
    simp [set_humidity_setpoints, humidity_resolve_validate, hr4, hr35,
      HUMIDITY_MIN, HUMIDITY_MAX]
    norm_num

/-- C7 witness: the humidity theorem's unsupported-humidify conjunct at
a concrete thermostat without humidify support. -/
theorem set_humidity_setpoints_spec_witness :
    set_humidity_setpoints ⟨true, none, some (1/2)⟩ none (some (1/2)) (some 1) =
      { posts := [], err := some .systemError } :=
  set_humidity_setpoints_spec.1 ⟨true, none, some (1/2)⟩ none (1/2) 1 rfl rfl

/-- C2 witness: the amended idempotence theorem's air-cleaner conjunct
at a mode equal to the current cached one. -/
theorem idempotence_skip_witness :
    set_air_cleaner "auto" "auto" = { posts := [], err := none } :=
  idempotence_skip_only_some_operations.1 "auto" "auto" (by decide) (by decide)

/-- C3 witness: the amended validation-ordering theorem's fan-mode
conjunct at an invalid fan mode. -/
theorem validation_raises_witness :
    (set_fan_mode "auto" "bogus").posts = [] :=
  validation_raises_before_data_post.2.2.2.2.1 "auto" "bogus" (by decide)

/-- C8: over a populated snapshot, the selection step of
`_get_thermostat_json` returns the whole sequence for the `"all"`
sentinel; returns the first Device whose id matches a specific id, or
raises the not-found error enumerating every known id when none
matches; and with the id omitted returns the device exactly when the
snapshot holds one device, raising the ambiguous-selection error
otherwise. -/
theorem get_thermostat_json_selection (snap : List DeviceRec) :
    (get_thermostat_json snap .all = .ok (.list snap)) ∧
    (∀ i d, find_dict_with_keyvalue_in_json snap (fun dev => dev.id) i = some d →
      get_thermostat_json snap (.byId i) = .ok (.one d)) ∧
    (∀ i, (∀ dev ∈ snap, dev.id ≠ i) →
      get_thermostat_json snap (.byId i) =
        .error (.notFound i (snap.map (fun dev => dev.id)))) ∧
    (∀ d, get_thermostat_json [d] .omitted = .ok (.one d)) ∧
    (snap.length ≠ 1 → get_thermostat_json snap .omitted = .error .ambiguous) := by
  refine ⟨rfl, ?_, ?_, fun d => rfl, ?_⟩
  · intro i d hfind
    simp only [get_thermostat_json]
    rw [hfind]
  · intro i hnone
    simp only [get_thermostat_json]
    have : find_dict_with_keyvalue_in_json snap (fun dev => dev.id) i = none := by
      unfold find_dict_with_keyvalue_in_json
      rw [List.find?_eq_none]
      intro dev hdev
      simp [hnone dev hdev]
    rw [this]
  · intro hlen
    rcases snap with _ | ⟨d, rest⟩
    · rfl
    · rcases rest with _ | ⟨d2, rest2⟩
      · simp at hlen
      · rfl

/-- C8 witness: the selection theorem applied to a two-device snapshot,
discharging the no-match hypothesis at id 3 and the not-one-device
hypothesis. -/
theorem get_thermostat_json_selection_witness :
    (get_thermostat_json [⟨1, "a"⟩, ⟨2, "b"⟩] .all =
      .ok (.list [⟨1, "a"⟩, ⟨2, "b"⟩])) ∧
    (∀ i d, find_dict_with_keyvalue_in_json [(⟨1, "a"⟩ : DeviceRec), ⟨2, "b"⟩]
        (fun dev => dev.id) i = some d →
      get_thermostat_json [⟨1, "a"⟩, ⟨2, "b"⟩] (.byId i) = .ok (.one d)) ∧
    (∀ i, (∀ dev ∈ [(⟨1, "a"⟩ : DeviceRec), ⟨2, "b"⟩], dev.id ≠ i) →
      get_thermostat_json [⟨1, "a"⟩, ⟨2, "b"⟩] (.byId i) =
        .error (.notFound i ([(⟨1, "a"⟩ : DeviceRec), ⟨2, "b"⟩].map (fun dev => dev.id)))) ∧
    (∀ d, get_thermostat_json [d] .omitted = .ok (.one d)) ∧
    ([(⟨1, "a"⟩ : DeviceRec), ⟨2, "b"⟩].length ≠ 1 →
      get_thermostat_json [⟨1, "a"⟩, ⟨2, "b"⟩] .omitted = .error .ambiguous) :=
  get_thermostat_json_selection [⟨1, "a"⟩, ⟨2, "b"⟩]

/-- C9: the process-wide login budget defaults to 4, and once the
counter is exhausted every `login` call returns the
authentication-exhausted error immediately, issuing zero sign-in
requests and leaving the counter at zero; while the counter is
positive a sign-in request is issued, and a failed request (no
response) decrements the counter. -/
theorem login_exhausted_fails_fast :
    GLOBAL_LOGIN_ATTEMPTS = 4 ∧
    (∀ response, login 0 response = (.exhausted, 0, 0)) ∧
    (∀ n response, 0 < n → (login n response).2.2 = 1) ∧
    (∀ n, 0 < n → login n none = (.checkFailed, n - 1, 1)) := by
  refine ⟨rfl, fun response => rfl, ?_, ?_⟩
  · intro n response hn
    unfold login
    rw [if_pos hn]
    rcases response with _ | r
    · rfl
    · simp only
      split_ifs <;> rfl
  · intro n hn
    unfold login
    rw [if_pos hn]

/-- C9 witness: the login theorem's positive-counter conjuncts at
counter value 1. -/
theorem login_exhausted_fails_fast_witness :
    (login 1 none).2.2 = 1 ∧ login 1 none = (.checkFailed, 0, 1) :=
  ⟨login_exhausted_fails_fast.2.2.1 1 none (by decide),
   login_exhausted_fails_fast.2.2.2 1 (by decide)⟩

/-- C10: on a thermostat reporting variable fan speed, for every
`fan_setpoint` within the reported limits, `set_fan_setpoint` raises
the unhandled `NameError` (the source reads the unbound name
`thermostat_id`) before building the URL, so it issues no POST, never
succeeds, and never mutates remote or cached state. -/
theorem set_fan_setpoint_name_error (st : FanState) (sp v : ℚ) (vs : List ℚ)
    (hv : st.fan_speed_values = some (v :: vs))
    (h1 : v ≤ sp) (h2 : sp ≤ (v :: vs).getLast (List.cons_ne_nil v vs)) :
    set_fan_setpoint st sp = { posts := [], err := some .nameError } := by
  unfold set_fan_setpoint get_variable_fan_speed_limits
  rw [hv]
  simp [h1, h2]

/-- C10 witness: the name-error theorem at fan speed values [0, 2] and
setpoint 1. -/
theorem set_fan_setpoint_name_error_witness :
    set_fan_setpoint ⟨some [0, 2]⟩ 1 = { posts := [], err := some .nameError } :=
  set_fan_setpoint_name_error ⟨some [0, 2]⟩ 1 0 [2] rfl (by simp)
    (by simp [List.getLast])

/-- C4 witness: the amended split theorem applied at deadband 3,
set_temperature 70, mode AUTO. -/
theorem unified_split_symmetric_ceil_witness :
    set_zone_heat_cool_temp ⟨3, 55, 90, .fahrenheit⟩ "AUTO" 68 73 none none (some 70) =
      set_setpoints ⟨3, 55, 90, .fahrenheit⟩ 68 73
        (round_temp TempUnit.fahrenheit 70 + ((⌈(3 : ℚ) / 2⌉ : ℤ) : ℚ))
        (round_temp TempUnit.fahrenheit 70 - ((⌈(3 : ℚ) / 2⌉ : ℤ) : ℚ)) ∧
    (round_temp TempUnit.fahrenheit 70 + ((⌈(3 : ℚ) / 2⌉ : ℤ) : ℚ)) -
        (round_temp TempUnit.fahrenheit 70 - ((⌈(3 : ℚ) / 2⌉ : ℤ) : ℚ)) ≥ 3 ∧
    (set_zone_heat_cool_temp ⟨3, 55, 90, .fahrenheit⟩ "AUTO" 68 73 none none (some 70)).posts =
      [PostReq.zoneSetpoints 68 72] :=
  unified_split_symmetric_ceil ⟨3, 55, 90, .fahrenheit⟩ "AUTO" 68 73 70
    (by decide) (by decide)

end Nexia
